import Mathlib

/-!
The program `volmgr_mount`: a namespace-scoped mount helper.

Shallow embedding of `tools/volmgr_mount.c` (its `main`), and theorems about
the observable behaviour of one run: which library and system calls are made,
in which order, with which arguments, and how the process ends.

The operating system is a parameter (`Sys`): it answers `open`, `setns` and
`execvp`.  Every other call of `main` (`fprintf`, `perror`, `exit`) has no
result that `main` inspects.
-/

namespace VolmgrMount

/-! ## Data model -/

/-- A C string, as the bytes that stand before its terminating NUL, each one
read as an `unsigned char`.  The end of the list is the NUL. -/
abbrev CStr := List Nat

/-- The bytes of a C string literal (all literals of the program are ASCII). -/
def lit (s : String) : CStr := s.toList.map Char.toNat

/-- The flag `O_RDONLY` of `<fcntl.h>` (value 0 on Linux). -/
def O_RDONLY : Int := 0

/-- The C library function `strncmp(s1, s2, n)`: compares at most `n`
characters, as `unsigned char`, and does not look past a terminating NUL.
The result is zero when the compared parts are equal and otherwise the
difference of the first two bytes that differ (the NUL counts as byte 0). -/
def strncmp : CStr → CStr → Nat → Int
  | _, _, 0 => 0
  | [], [], _ + 1 => 0
  | [], c2 :: _, _ + 1 => 0 - (c2 : Int)
  | c1 :: _, [], _ + 1 => (c1 : Int) - 0
  | c1 :: s1, c2 :: s2, n + 1 =>
    if c1 = c2 then strncmp s1 s2 n else (c1 : Int) - (c2 : Int)

/-- One call that `main` makes and that is visible outside the process,
together with the value the call returned where `main` reads it. -/
inductive Effect where
  /-- Call `fprintf(stderr, format, args...)`; a `none` argument is a NULL pointer. -/
  | fprintf_stderr (format : String) (args : List (Option CStr))
  /-- Call `open(pathname, flags)`, which returned `ret`. -/
  | open_ (pathname : CStr) (flags : Int) (ret : Int)
  /-- Call `setns(fd, nstype)`, which returned `ret`. -/
  | setns (fd : Int) (nstype : Int) (ret : Int)
  /-- Call `perror(s)`. -/
  | perror (s : String)
  /-- Call `execvp(file, argv)`; `ret = none` when the call did not return
  (the process image was replaced), `some r` when it returned `r`. -/
  | execvp (file : CStr) (argv : List CStr) (ret : Option Int)
  deriving DecidableEq

/-- How a run of `main` ends. -/
inductive Outcome where
  /-- The process called `exit(status)`. -/
  | exited (status : Int)
  /-- The process image was replaced by `execvp(file, argv)`. -/
  | replaced (file : CStr) (argv : List CStr)
  /-- Control reached the closing brace of `main`. -/
  | fell_off_end
  deriving DecidableEq

/-- One run: the calls made, in order, and the way the run ended. -/
structure Run where
  trace : List Effect
  outcome : Outcome
  deriving DecidableEq

/-- The answers of the operating system to the three calls whose result
`main` inspects.  `sys_execvp` answers `none` when the image is replaced. -/
structure Sys where
  sys_open : CStr → Int → Int
  sys_setns : Int → Int → Int
  sys_execvp : CStr → List CStr → Option Int

/-- The status a parent observes after `exit(status)`: `status & 0377`. -/
def wait_status (status : Int) : Int := status % 256

/-- The usage format string of `main`. -/
def usage_format : String := "%s <mount_namespace_fd> <-m|-u> <mount_args>"

/-! ## The program -/

/-- The function `main(argc, argv)` of `volmgr_mount.c`; `argc` is the length
of `argv` and `argv[argc]` is NULL. -/
def main (sys : Sys) (argv : List CStr) : Run :=
  let argc := argv.length
  if h : argc < 3 then
    ⟨[.fprintf_stderr usage_format [argv[0]?]], .exited (-1)⟩
  else
    let fd := sys.sys_open argv[1] O_RDONLY
    let t1 := [Effect.open_ argv[1] O_RDONLY fd]
    if fd = -1 then
      ⟨t1 ++ [.perror "open mount namespace fd failed"], .exited (-1)⟩
    else
      let r := sys.sys_setns fd 0
      let t2 := t1 ++ [Effect.setns fd 0 r]
      if r ≠ 0 then
        ⟨t2 ++ [.perror "failed to switch namespace"], .exited (-1)⟩
      else if strncmp argv[2] (lit "-m") 2 = 0 then
        let argv := argv.set 2 (lit "mount")
        match sys.sys_execvp (lit "mount") (argv.drop 2) with
        | none =>
          ⟨t2 ++ [.execvp (lit "mount") (argv.drop 2) none],
            .replaced (lit "mount") (argv.drop 2)⟩
        | some e =>
          let t3 := t2 ++ [Effect.execvp (lit "mount") (argv.drop 2) (some e)]
          if e ≠ 0 then ⟨t3 ++ [.perror "mount failed"], .exited (-1)⟩
          else ⟨t3, .fell_off_end⟩
      else if strncmp argv[2] (lit "-u") 2 = 0 then
        let argv := argv.set 2 (lit "umount")
        match sys.sys_execvp (lit "umount") (argv.drop 2) with
        | none =>
          ⟨t2 ++ [.execvp (lit "umount") (argv.drop 2) none],
            .replaced (lit "umount") (argv.drop 2)⟩
        | some e =>
          let t3 := t2 ++ [Effect.execvp (lit "umount") (argv.drop 2) (some e)]
          if e ≠ 0 then ⟨t3 ++ [.perror "umount failed"], .exited (-1)⟩
          else ⟨t3, .fell_off_end⟩
      else
        ⟨t2 ++ [.fprintf_stderr "unrecognize parameter!" []], .exited (-1)⟩

/-! ## Observations on a trace -/

/-- The `open` calls of a trace. -/
def opens (t : List Effect) : List Effect :=
  t.filter fun e => match e with
    | .open_ _ _ _ => true
    | _ => false

/-- The `setns` calls of a trace. -/
def joins (t : List Effect) : List Effect :=
  t.filter fun e => match e with
    | .setns _ _ _ => true
    | _ => false

/-- The `execvp` calls of a trace. -/
def execs (t : List Effect) : List Effect :=
  t.filter fun e => match e with
    | .execvp _ _ _ => true
    | _ => false

/-- A system that accepts everything: every `open` yields descriptor 3,
every `setns` succeeds and every `execvp` replaces the image. -/
def sys_ok : Sys := ⟨fun _ _ => 3, fun _ _ => 0, fun _ _ => none⟩

/-- A system in which `open` and `setns` succeed and `execvp` fails with -1. -/
def sys_noexec : Sys := ⟨fun _ _ => 3, fun _ _ => 0, fun _ _ => some (-1)⟩

/-- A system in which `open` succeeds and `setns` fails with -1. -/
def sys_nojoin : Sys := ⟨fun _ _ => 3, fun _ _ => -1, fun _ _ => none⟩

/-- A system in which `open` fails with -1. -/
def sys_noopen : Sys := ⟨fun _ _ => -1, fun _ _ => 0, fun _ _ => none⟩

/-! ## The selector test -/

theorem lit_m : lit "-m" = [45, 109] := by decide

theorem lit_u : lit "-u" = [45, 117] := by decide

/-- The test `strncmp(op, "-m", 2) == 0` holds exactly when `op` starts with `-m`. -/
theorem strncmp_m_iff (op : CStr) : strncmp op (lit "-m") 2 = 0 ↔ lit "-m" <+: op := by
  rw [lit_m]
  rcases op with _ | ⟨a, _ | ⟨b, s⟩⟩
  · simp [strncmp]
  · by_cases ha : a = 45
    · simp [strncmp, ha]
    · simp [strncmp, ha, sub_eq_zero]
      omega
  · by_cases ha : a = 45 <;> by_cases hb : b = 109 <;>
      simp [strncmp, ha, hb, List.cons_prefix_cons, sub_eq_zero] <;> omega

/-- The test `strncmp(op, "-u", 2) == 0` holds exactly when `op` starts with `-u`. -/
theorem strncmp_u_iff (op : CStr) : strncmp op (lit "-u") 2 = 0 ↔ lit "-u" <+: op := by
  rw [lit_u]
  rcases op with _ | ⟨a, _ | ⟨b, s⟩⟩
  · simp [strncmp]
  · by_cases ha : a = 45
    · simp [strncmp, ha]
    · simp [strncmp, ha, sub_eq_zero]
      omega
  · by_cases ha : a = 45 <;> by_cases hb : b = 117 <;>
      simp [strncmp, ha, hb, List.cons_prefix_cons, sub_eq_zero] <;> omega

/-- A run with fewer than three arguments. -/
theorem main_short (sys : Sys) (argv : List CStr) (h : argv.length < 3) :
    main sys argv = ⟨[.fprintf_stderr usage_format [argv[0]?]], .exited (-1)⟩ := by
  simp [main, h]

theorem main_open_fail (sys : Sys) (prog ns op : CStr) (as : List CStr)
    (hopen : sys.sys_open ns O_RDONLY = -1) :
    main sys (prog :: ns :: op :: as) =
      ⟨[.open_ ns O_RDONLY (-1), .perror "open mount namespace fd failed"], .exited (-1)⟩ := by
  simp [main, hopen]

theorem main_join_fail (sys : Sys) (prog ns op : CStr) (as : List CStr)
    (hopen : sys.sys_open ns O_RDONLY ≠ -1)
    (hjoin : sys.sys_setns (sys.sys_open ns O_RDONLY) 0 ≠ 0) :
    main sys (prog :: ns :: op :: as) =
      ⟨[.open_ ns O_RDONLY (sys.sys_open ns O_RDONLY),
        .setns (sys.sys_open ns O_RDONLY) 0 (sys.sys_setns (sys.sys_open ns O_RDONLY) 0),
        .perror "failed to switch namespace"], .exited (-1)⟩ := by
  simp [main, hopen, hjoin]

theorem main_mount (sys : Sys) (prog ns op : CStr) (as : List CStr)
    (hopen : sys.sys_open ns O_RDONLY ≠ -1)
    (hjoin : sys.sys_setns (sys.sys_open ns O_RDONLY) 0 = 0)
    (hop : lit "-m" <+: op) :
    main sys (prog :: ns :: op :: as) =
      match sys.sys_execvp (lit "mount") (lit "mount" :: as) with
      | none =>
        ⟨[.open_ ns O_RDONLY (sys.sys_open ns O_RDONLY),
          .setns (sys.sys_open ns O_RDONLY) 0 0,
          .execvp (lit "mount") (lit "mount" :: as) none],
          .replaced (lit "mount") (lit "mount" :: as)⟩
      | some e =>
        if e ≠ 0 then
          ⟨[.open_ ns O_RDONLY (sys.sys_open ns O_RDONLY),
            .setns (sys.sys_open ns O_RDONLY) 0 0,
            .execvp (lit "mount") (lit "mount" :: as) (some e),
            .perror "mount failed"], .exited (-1)⟩
        else
          ⟨[.open_ ns O_RDONLY (sys.sys_open ns O_RDONLY),
            .setns (sys.sys_open ns O_RDONLY) 0 0,
            .execvp (lit "mount") (lit "mount" :: as) (some e)], .fell_off_end⟩ := by
  have h := (strncmp_m_iff op).2 hop
  simp only [main]
  simp [hopen, hjoin, h]

/-- The two selectors exclude one another. -/
theorem not_m_of_u (op : CStr) (hu : lit "-u" <+: op) : ¬ lit "-m" <+: op := by
  rw [lit_u] at hu
  rw [lit_m]
  rcases hu with ⟨s, rfl⟩
  simp [List.cons_prefix_cons]

theorem main_umount (sys : Sys) (prog ns op : CStr) (as : List CStr)
    (hopen : sys.sys_open ns O_RDONLY ≠ -1)
    (hjoin : sys.sys_setns (sys.sys_open ns O_RDONLY) 0 = 0)
    (hop : lit "-u" <+: op) :
    main sys (prog :: ns :: op :: as) =
      match sys.sys_execvp (lit "umount") (lit "umount" :: as) with
      | none =>
        ⟨[.open_ ns O_RDONLY (sys.sys_open ns O_RDONLY),
          .setns (sys.sys_open ns O_RDONLY) 0 0,
          .execvp (lit "umount") (lit "umount" :: as) none],
          .replaced (lit "umount") (lit "umount" :: as)⟩
      | some e =>
        if e ≠ 0 then
          ⟨[.open_ ns O_RDONLY (sys.sys_open ns O_RDONLY),
            .setns (sys.sys_open ns O_RDONLY) 0 0,
            .execvp (lit "umount") (lit "umount" :: as) (some e),
            .perror "umount failed"], .exited (-1)⟩
        else
          ⟨[.open_ ns O_RDONLY (sys.sys_open ns O_RDONLY),
            .setns (sys.sys_open ns O_RDONLY) 0 0,
            .execvp (lit "umount") (lit "umount" :: as) (some e)], .fell_off_end⟩ := by
  have h := (strncmp_u_iff op).2 hop
  have h' : ¬ strncmp op (lit "-m") 2 = 0 := fun hm =>
    not_m_of_u op hop ((strncmp_m_iff op).1 hm)
  simp only [main]
  simp [hopen, hjoin, h, h']

theorem main_unrecognized (sys : Sys) (prog ns op : CStr) (as : List CStr)
    (hopen : sys.sys_open ns O_RDONLY ≠ -1)
    (hjoin : sys.sys_setns (sys.sys_open ns O_RDONLY) 0 = 0)
    (hm : ¬ lit "-m" <+: op) (hu : ¬ lit "-u" <+: op) :
    main sys (prog :: ns :: op :: as) =
      ⟨[.open_ ns O_RDONLY (sys.sys_open ns O_RDONLY),
        .setns (sys.sys_open ns O_RDONLY) 0 0,
        .fprintf_stderr "unrecognize parameter!" []], .exited (-1)⟩ := by
  have h := mt (strncmp_m_iff op).1 hm
  have h' := mt (strncmp_u_iff op).1 hu
  simp only [main]
  simp [hopen, hjoin, h, h']

/-- Every run of `main` has one of seven shapes, decided by the number of
arguments, the selector and the answers of the system. -/
theorem main_cases (sys : Sys) (argv : List CStr) :
    (argv.length < 3 ∧
      main sys argv = ⟨[.fprintf_stderr usage_format [argv[0]?]], .exited (-1)⟩) ∨
    ∃ prog ns op as, argv = prog :: ns :: op :: as ∧
      ((sys.sys_open ns O_RDONLY = -1 ∧
        main sys argv =
          ⟨[.open_ ns O_RDONLY (-1), .perror "open mount namespace fd failed"],
            .exited (-1)⟩) ∨
       (sys.sys_open ns O_RDONLY ≠ -1 ∧
        sys.sys_setns (sys.sys_open ns O_RDONLY) 0 ≠ 0 ∧
        main sys argv =
          ⟨[.open_ ns O_RDONLY (sys.sys_open ns O_RDONLY),
            .setns (sys.sys_open ns O_RDONLY) 0
              (sys.sys_setns (sys.sys_open ns O_RDONLY) 0),
            .perror "failed to switch namespace"], .exited (-1)⟩) ∨
       (sys.sys_open ns O_RDONLY ≠ -1 ∧
        sys.sys_setns (sys.sys_open ns O_RDONLY) 0 = 0 ∧
        ¬ lit "-m" <+: op ∧ ¬ lit "-u" <+: op ∧
        main sys argv =
          ⟨[.open_ ns O_RDONLY (sys.sys_open ns O_RDONLY),
            .setns (sys.sys_open ns O_RDONLY) 0 0,
            .fprintf_stderr "unrecognize parameter!" []], .exited (-1)⟩) ∨
       (sys.sys_open ns O_RDONLY ≠ -1 ∧
        sys.sys_setns (sys.sys_open ns O_RDONLY) 0 = 0 ∧
        ∃ name : String,
          ((name = "mount" ∧ lit "-m" <+: op) ∨ (name = "umount" ∧ lit "-u" <+: op)) ∧
          ((sys.sys_execvp (lit name) (lit name :: as) = none ∧
            main sys argv =
              ⟨[.open_ ns O_RDONLY (sys.sys_open ns O_RDONLY),
                .setns (sys.sys_open ns O_RDONLY) 0 0,
                .execvp (lit name) (lit name :: as) none],
                .replaced (lit name) (lit name :: as)⟩) ∨
           (∃ e, sys.sys_execvp (lit name) (lit name :: as) = some e ∧ e ≠ 0 ∧
            main sys argv =
              ⟨[.open_ ns O_RDONLY (sys.sys_open ns O_RDONLY),
                .setns (sys.sys_open ns O_RDONLY) 0 0,
                .execvp (lit name) (lit name :: as) (some e),
                .perror (name ++ " failed")], .exited (-1)⟩) ∨
           (sys.sys_execvp (lit name) (lit name :: as) = some 0 ∧
            main sys argv =
              ⟨[.open_ ns O_RDONLY (sys.sys_open ns O_RDONLY),
                .setns (sys.sys_open ns O_RDONLY) 0 0,
                .execvp (lit name) (lit name :: as) (some 0)], .fell_off_end⟩)))) := by
  by_cases hlen : argv.length < 3
  · exact Or.inl ⟨hlen, main_short sys argv hlen⟩
  right
  obtain ⟨prog, ns, op, as, rfl⟩ : ∃ prog ns op as, argv = prog :: ns :: op :: as := by
    rcases argv with _ | ⟨prog, _ | ⟨ns, _ | ⟨op, as⟩⟩⟩
    · simp at hlen
    · simp at hlen
    · simp at hlen
    · exact ⟨prog, ns, op, as, rfl⟩
  refine ⟨prog, ns, op, as, rfl, ?_⟩
  by_cases hopen : sys.sys_open ns O_RDONLY = -1
  · exact Or.inl ⟨hopen, main_open_fail sys prog ns op as hopen⟩
  by_cases hjoin : sys.sys_setns (sys.sys_open ns O_RDONLY) 0 = 0
  swap
  · exact Or.inr (Or.inl ⟨hopen, hjoin, main_join_fail sys prog ns op as hopen hjoin⟩)
  by_cases hm : lit "-m" <+: op
  · refine Or.inr (Or.inr (Or.inr ⟨hopen, hjoin, "mount", Or.inl ⟨rfl, hm⟩, ?_⟩))
    rw [main_mount sys prog ns op as hopen hjoin hm]
    rcases hx : sys.sys_execvp (lit "mount") (lit "mount" :: as) with _ | e
    · simp
    · by_cases he : e = 0
      · subst he; simp
      · right; left; exact ⟨e, rfl, he, by simp [he]⟩
  by_cases hu : lit "-u" <+: op
  · refine Or.inr (Or.inr (Or.inr ⟨hopen, hjoin, "umount", Or.inr ⟨rfl, hu⟩, ?_⟩))
    rw [main_umount sys prog ns op as hopen hjoin hu]
    rcases hx : sys.sys_execvp (lit "umount") (lit "umount" :: as) with _ | e
    · simp
    · by_cases he : e = 0
      · subst he; simp
      · right; left; exact ⟨e, rfl, he, by simp [he]⟩
  · exact Or.inr (Or.inr (Or.inl
      ⟨hopen, hjoin, hm, hu, main_unrecognized sys prog ns op as hopen hjoin hm hu⟩))

/-! ## Dispatch -/

/-- C1: when the selector starts with `-m` and both the open and the join
succeed, the run makes exactly one `execvp` call, for the file `mount`, with
the argument vector `mount` followed by the operation arguments in their
original order; the program name and the namespace path are not forwarded. -/
theorem mount_dispatch (sys : Sys) (prog ns op : CStr) (as : List CStr)
    (hop : lit "-m" <+: op)
    (hopen : sys.sys_open ns O_RDONLY ≠ -1)
    (hjoin : sys.sys_setns (sys.sys_open ns O_RDONLY) 0 = 0) :
    execs (main sys (prog :: ns :: op :: as)).trace =
      [.execvp (lit "mount") (lit "mount" :: as)
        (sys.sys_execvp (lit "mount") (lit "mount" :: as))] := by
  rw [main_mount sys prog ns op as hopen hjoin hop]
  rcases sys.sys_execvp (lit "mount") (lit "mount" :: as) with _ | e
  · simp [execs]
  · by_cases he : e = 0 <;> simp [execs, he]

/-- Scenario 2 of the specification: `prog /proc/1234/ns/mnt -m /dev/sdb1 /mnt/vol`. -/
theorem mount_dispatch_witness :
    execs (main sys_ok [lit "prog", lit "/proc/1234/ns/mnt", lit "-m", lit "/dev/sdb1",
        lit "/mnt/vol"]).trace =
      [.execvp (lit "mount") [lit "mount", lit "/dev/sdb1", lit "/mnt/vol"] none] :=
  mount_dispatch sys_ok (lit "prog") (lit "/proc/1234/ns/mnt") (lit "-m")
    [lit "/dev/sdb1", lit "/mnt/vol"] (by decide) (by decide) (by decide)

/-- C2: when the selector starts with `-u` and both the open and the join
succeed, the run makes exactly one `execvp` call, for the file `umount`, with
the argument vector `umount` followed by the operation arguments in their
original order, and no `execvp` call for `mount`. -/
theorem umount_dispatch (sys : Sys) (prog ns op : CStr) (as : List CStr)
    (hop : lit "-u" <+: op)
    (hopen : sys.sys_open ns O_RDONLY ≠ -1)
    (hjoin : sys.sys_setns (sys.sys_open ns O_RDONLY) 0 = 0) :
    execs (main sys (prog :: ns :: op :: as)).trace =
      [.execvp (lit "umount") (lit "umount" :: as)
        (sys.sys_execvp (lit "umount") (lit "umount" :: as))] ∧
    ∀ av r, Effect.execvp (lit "mount") av r ∉ (main sys (prog :: ns :: op :: as)).trace := by
  have hne : lit "umount" ≠ lit "mount" := by decide
  rw [main_umount sys prog ns op as hopen hjoin hop]
  rcases sys.sys_execvp (lit "umount") (lit "umount" :: as) with _ | e
  · simp [execs, hne.symm]
  · by_cases he : e = 0 <;> simp [execs, he, hne.symm]

/-- Scenario 3 of the specification: `prog /proc/1234/ns/mnt -u /mnt/vol`. -/
theorem umount_dispatch_witness :
    execs (main sys_ok [lit "prog", lit "/proc/1234/ns/mnt", lit "-u", lit "/mnt/vol"]).trace =
      [.execvp (lit "umount") [lit "umount", lit "/mnt/vol"] none] ∧
    ∀ av r, Effect.execvp (lit "mount") av r ∉
      (main sys_ok [lit "prog", lit "/proc/1234/ns/mnt", lit "-u", lit "/mnt/vol"]).trace :=
  umount_dispatch sys_ok (lit "prog") (lit "/proc/1234/ns/mnt") (lit "-u")
    [lit "/mnt/vol"] (by decide) (by decide) (by decide)

/-! ## Ordering of the steps -/

/-- C3: in every run, an `execvp` call is the third call of the run, made
after an `open` that did not return -1 and after `setns(fd, 0)` on the opened
descriptor returned 0; a `setns` call is the second call of the run, with
namespace kind 0, on the descriptor that the `open` of `argv[1]` returned
(never -1, hence a valid descriptor whenever `open` keeps its contract of
answering -1 or a non-negative descriptor); and when the join fails the run
is `open`, `setns`, `perror`, ends with `exit(-1)` and has no `execvp` call,
whatever the selector and the operation arguments are. -/
theorem dispatch_only_after_join (sys : Sys) (argv : List CStr) :
    (∀ file av r, Effect.execvp file av r ∈ (main sys argv).trace →
      ∃ path fd rest,
        (main sys argv).trace =
          .open_ path O_RDONLY fd :: .setns fd 0 0 :: .execvp file av r :: rest ∧
        sys.sys_open path O_RDONLY = fd ∧ fd ≠ -1 ∧ sys.sys_setns fd 0 = 0) ∧
    (∀ fd k r, Effect.setns fd k r ∈ (main sys argv).trace →
      k = 0 ∧ sys.sys_setns fd 0 = r ∧
      ∃ path rest,
        (main sys argv).trace = .open_ path O_RDONLY fd :: .setns fd 0 r :: rest ∧
        argv[1]? = some path ∧ sys.sys_open path O_RDONLY = fd ∧ fd ≠ -1 ∧
        ((∀ p f, sys.sys_open p f = -1 ∨ 0 ≤ sys.sys_open p f) → 0 ≤ fd)) ∧
    (∀ prog ns op as, argv = prog :: ns :: op :: as →
      sys.sys_open ns O_RDONLY ≠ -1 →
      sys.sys_setns (sys.sys_open ns O_RDONLY) 0 ≠ 0 →
      (main sys argv).trace =
        [.open_ ns O_RDONLY (sys.sys_open ns O_RDONLY),
         .setns (sys.sys_open ns O_RDONLY) 0 (sys.sys_setns (sys.sys_open ns O_RDONLY) 0),
         .perror "failed to switch namespace"] ∧
      (main sys argv).outcome = .exited (-1) ∧ wait_status (-1) = 255 ∧
      execs (main sys argv).trace = []) := by
  refine ⟨?_, ?_, ?_⟩
  · intro file av r hmem
    rcases main_cases sys argv with ⟨_, h⟩ | ⟨prog, ns, op, as, rfl, h | ⟨_, _, h⟩ |
      ⟨_, _, _, _, h⟩ | ⟨hopen, hjoin, name, _, ⟨hx, h⟩ | ⟨e, hx, _, h⟩ | ⟨hx, h⟩⟩⟩
    · simp [h] at hmem
    · simp [h] at hmem
    · simp [h] at hmem
    · simp [h] at hmem
    · rw [h] at hmem ⊢
      simp at hmem
      obtain ⟨rfl, rfl, rfl⟩ := hmem
      exact ⟨ns, _, [], rfl, rfl, hopen, hjoin⟩
    · rw [h] at hmem ⊢
      simp at hmem
      obtain ⟨rfl, rfl, rfl⟩ := hmem
      exact ⟨ns, _, _, rfl, rfl, hopen, hjoin⟩
    · rw [h] at hmem ⊢
      simp at hmem
      obtain ⟨rfl, rfl, rfl⟩ := hmem
      exact ⟨ns, _, [], rfl, rfl, hopen, hjoin⟩
  · intro fd k r hmem
    have key : ∀ (ns : CStr) (rest : List Effect) (tl : List CStr) (prog : CStr),
        sys.sys_open ns O_RDONLY ≠ -1 →
        (fd = sys.sys_open ns O_RDONLY ∧ k = 0 ∧
          r = sys.sys_setns (sys.sys_open ns O_RDONLY) 0) →
        (main sys (prog :: ns :: tl)).trace =
          .open_ ns O_RDONLY (sys.sys_open ns O_RDONLY) ::
            .setns (sys.sys_open ns O_RDONLY) 0
              (sys.sys_setns (sys.sys_open ns O_RDONLY) 0) :: rest →
        k = 0 ∧ sys.sys_setns fd 0 = r ∧
        ∃ path rest,
          (main sys (prog :: ns :: tl)).trace =
            .open_ path O_RDONLY fd :: .setns fd 0 r :: rest ∧
          (prog :: ns :: tl)[1]? = some path ∧ sys.sys_open path O_RDONLY = fd ∧ fd ≠ -1 ∧
          ((∀ p f, sys.sys_open p f = -1 ∨ 0 ≤ sys.sys_open p f) → 0 ≤ fd) := by
      rintro ns rest tl prog hopen ⟨rfl, rfl, rfl⟩ htrace
      refine ⟨rfl, rfl, ns, rest, htrace, by simp, rfl, hopen, fun hc => ?_⟩
      rcases hc ns O_RDONLY with h1 | h1
      · exact absurd h1 hopen
      · exact h1
    rcases main_cases sys argv with ⟨_, h⟩ | ⟨prog, ns, op, as, rfl, h | ⟨hopen, _, h⟩ |
      ⟨hopen, hjoin, _, _, h⟩ | ⟨hopen, hjoin, name, _, ⟨hx, h⟩ | ⟨e, hx, _, h⟩ | ⟨hx, h⟩⟩⟩
    · simp [h] at hmem
    · simp [h] at hmem
    · rw [h] at hmem
      simp at hmem
      exact key ns _ _ prog hopen hmem (by rw [h])
    · rw [h] at hmem
      simp at hmem
      exact key ns _ _ prog hopen (by rw [hjoin]; exact hmem) (by rw [h, hjoin])
    · rw [h] at hmem
      simp at hmem
      exact key ns _ _ prog hopen (by rw [hjoin]; exact hmem) (by rw [h, hjoin])
    · rw [h] at hmem
      simp at hmem
      exact key ns _ _ prog hopen (by rw [hjoin]; exact hmem) (by rw [h, hjoin])
    · rw [h] at hmem
      simp at hmem
      exact key ns _ _ prog hopen (by rw [hjoin]; exact hmem) (by rw [h, hjoin])
  · rintro prog ns op as rfl hopen hjoin
    rw [main_join_fail sys prog ns op as hopen hjoin]
    simp [execs, wait_status]

/-- A failed join under selector `-m`, and the order of the calls of a
successful mount run. -/
theorem dispatch_only_after_join_witness :
    ((main sys_nojoin [lit "prog", lit "/proc/1234/ns/mnt", lit "-m", lit "/dev/sdb1"]).trace =
        [.open_ (lit "/proc/1234/ns/mnt") O_RDONLY 3, .setns 3 0 (-1),
         .perror "failed to switch namespace"] ∧
      (main sys_nojoin [lit "prog", lit "/proc/1234/ns/mnt", lit "-m",
        lit "/dev/sdb1"]).outcome = .exited (-1) ∧
      wait_status (-1) = 255 ∧
      execs (main sys_nojoin [lit "prog", lit "/proc/1234/ns/mnt", lit "-m",
        lit "/dev/sdb1"]).trace = []) ∧
    ∃ path fd rest,
      (main sys_ok [lit "prog", lit "/proc/1234/ns/mnt", lit "-m", lit "/dev/sdb1"]).trace =
        .open_ path O_RDONLY fd :: .setns fd 0 0 ::
          .execvp (lit "mount") [lit "mount", lit "/dev/sdb1"] none :: rest ∧
      sys_ok.sys_open path O_RDONLY = fd ∧ fd ≠ -1 ∧ sys_ok.sys_setns fd 0 = 0 :=
  ⟨(dispatch_only_after_join sys_nojoin
      [lit "prog", lit "/proc/1234/ns/mnt", lit "-m", lit "/dev/sdb1"]).2.2
      (lit "prog") (lit "/proc/1234/ns/mnt") (lit "-m") [lit "/dev/sdb1"] rfl
      (by decide) (by decide),
   (dispatch_only_after_join sys_ok
      [lit "prog", lit "/proc/1234/ns/mnt", lit "-m", lit "/dev/sdb1"]).1
      (lit "mount") [lit "mount", lit "/dev/sdb1"] none (by decide)⟩

/-! ## Failures -/

/-- C4: with fewer than three arguments the run consists of the single call
`fprintf(stderr, usage, argv[0])` and ends with `exit(-1)`, a non-zero
status; it makes no `open`, no `setns` and no `execvp` call. -/
theorem usage_error (sys : Sys) (argv : List CStr) (h : argv.length < 3) :
    (main sys argv).trace = [.fprintf_stderr usage_format [argv[0]?]] ∧
    (main sys argv).outcome = .exited (-1) ∧
    wait_status (-1) ≠ 0 ∧
    opens (main sys argv).trace = [] ∧
    joins (main sys argv).trace = [] ∧
    execs (main sys argv).trace = [] := by
  rw [main_short sys argv h]
  simp [opens, joins, execs, wait_status]

/-- Scenario 1 of the specification: the invocation `prog`, and an invocation
that stops one argument short. -/
theorem usage_error_witness :
    ((main sys_ok [lit "prog"]).trace =
        [.fprintf_stderr "%s <mount_namespace_fd> <-m|-u> <mount_args>" [some (lit "prog")]] ∧
      (main sys_ok [lit "prog"]).outcome = .exited (-1) ∧
      wait_status (-1) ≠ 0 ∧
      opens (main sys_ok [lit "prog"]).trace = [] ∧
      joins (main sys_ok [lit "prog"]).trace = [] ∧
      execs (main sys_ok [lit "prog"]).trace = []) ∧
    execs (main sys_ok [lit "prog", lit "/proc/1234/ns/mnt"]).trace = [] :=
  ⟨usage_error sys_ok [lit "prog"] (by decide),
   (usage_error sys_ok [lit "prog", lit "/proc/1234/ns/mnt"] (by decide)).2.2.2.2.2⟩

/-- C5: with at least three arguments, when `open(argv[1], O_RDONLY)` fails
the run is `open`, `perror` and ends with `exit(-1)`, a non-zero status; it
makes no `setns` and no `execvp` call, whatever the selector and the operation
arguments are. -/
theorem open_failure (sys : Sys) (prog ns op : CStr) (as : List CStr)
    (hopen : sys.sys_open ns O_RDONLY = -1) :
    (main sys (prog :: ns :: op :: as)).trace =
      [.open_ ns O_RDONLY (-1), .perror "open mount namespace fd failed"] ∧
    (main sys (prog :: ns :: op :: as)).outcome = .exited (-1) ∧
    wait_status (-1) ≠ 0 ∧
    joins (main sys (prog :: ns :: op :: as)).trace = [] ∧
    execs (main sys (prog :: ns :: op :: as)).trace = [] := by
  rw [main_open_fail sys prog ns op as hopen]
  simp [joins, execs, wait_status]

/-- Scenario 4 of the specification: `prog /nonexistent/ns -m /dev/sdb1 /mnt/vol`. -/
theorem open_failure_witness :
    (main sys_noopen [lit "prog", lit "/nonexistent/ns", lit "-m", lit "/dev/sdb1",
        lit "/mnt/vol"]).trace =
      [.open_ (lit "/nonexistent/ns") O_RDONLY (-1),
       .perror "open mount namespace fd failed"] ∧
    (main sys_noopen [lit "prog", lit "/nonexistent/ns", lit "-m", lit "/dev/sdb1",
        lit "/mnt/vol"]).outcome = .exited (-1) ∧
    wait_status (-1) ≠ 0 ∧
    joins (main sys_noopen [lit "prog", lit "/nonexistent/ns", lit "-m", lit "/dev/sdb1",
        lit "/mnt/vol"]).trace = [] ∧
    execs (main sys_noopen [lit "prog", lit "/nonexistent/ns", lit "-m", lit "/dev/sdb1",
        lit "/mnt/vol"]).trace = [] :=
  open_failure sys_noopen (lit "prog") (lit "/nonexistent/ns") (lit "-m")
    [lit "/dev/sdb1", lit "/mnt/vol"] (by decide)

/-- C6: with at least three arguments, a selector that starts with neither
`-m` nor `-u`, and a successful open, the first two calls of the run are the
`open` and the `setns` on the opened descriptor, whatever the selector is;
when the join succeeds the run continues with
`fprintf(stderr, "unrecognize parameter!")` and ends with `exit(-1)`; and
whether or not the join succeeds, the run ends with `exit(-1)`, a non-zero
status, without any `execvp` call. -/
theorem unrecognized_selector (sys : Sys) (prog ns op : CStr) (as : List CStr)
    (hm : ¬ lit "-m" <+: op) (hu : ¬ lit "-u" <+: op)
    (hopen : sys.sys_open ns O_RDONLY ≠ -1) :
    (main sys (prog :: ns :: op :: as)).trace.take 2 =
      [.open_ ns O_RDONLY (sys.sys_open ns O_RDONLY),
       .setns (sys.sys_open ns O_RDONLY) 0 (sys.sys_setns (sys.sys_open ns O_RDONLY) 0)] ∧
    (sys.sys_setns (sys.sys_open ns O_RDONLY) 0 = 0 →
      (main sys (prog :: ns :: op :: as)).trace =
        [.open_ ns O_RDONLY (sys.sys_open ns O_RDONLY),
         .setns (sys.sys_open ns O_RDONLY) 0 0,
         .fprintf_stderr "unrecognize parameter!" []]) ∧
    (main sys (prog :: ns :: op :: as)).outcome = .exited (-1) ∧
    wait_status (-1) ≠ 0 ∧
    execs (main sys (prog :: ns :: op :: as)).trace = [] := by
  by_cases hjoin : sys.sys_setns (sys.sys_open ns O_RDONLY) 0 = 0
  · rw [main_unrecognized sys prog ns op as hopen hjoin hm hu]
    simp [execs, wait_status, hjoin]
  · rw [main_join_fail sys prog ns op as hopen hjoin]
    simp [execs, wait_status, hjoin]

/-- Scenario 5 of the specification: `prog /proc/1234/ns/mnt -x foo`. -/
theorem unrecognized_selector_witness :
    (main sys_ok [lit "prog", lit "/proc/1234/ns/mnt", lit "-x", lit "foo"]).trace =
      [.open_ (lit "/proc/1234/ns/mnt") O_RDONLY 3, .setns 3 0 0,
       .fprintf_stderr "unrecognize parameter!" []] ∧
    (main sys_ok [lit "prog", lit "/proc/1234/ns/mnt", lit "-x", lit "foo"]).outcome =
      .exited (-1) ∧
    execs (main sys_ok [lit "prog", lit "/proc/1234/ns/mnt", lit "-x", lit "foo"]).trace = [] :=
  have h := unrecognized_selector sys_ok (lit "prog") (lit "/proc/1234/ns/mnt") (lit "-x")
    [lit "foo"] (by decide) (by decide) (by decide)
  ⟨h.2.1 rfl, h.2.2.1, h.2.2.2.2⟩

/-! ## The selector -/

/-- The run does not depend on what follows the first two characters of a
selector that starts with `-m`. -/
theorem main_m_suffix (sys : Sys) (prog ns s t : CStr) (as : List CStr) :
    main sys (prog :: ns :: (lit "-m" ++ s) :: as) =
      main sys (prog :: ns :: (lit "-m" ++ t) :: as) := by
  by_cases hopen : sys.sys_open ns O_RDONLY = -1
  · rw [main_open_fail sys prog ns _ as hopen, main_open_fail sys prog ns _ as hopen]
  by_cases hjoin : sys.sys_setns (sys.sys_open ns O_RDONLY) 0 = 0
  · rw [main_mount sys prog ns _ as hopen hjoin (List.prefix_append _ s),
      main_mount sys prog ns _ as hopen hjoin (List.prefix_append _ t)]
  · rw [main_join_fail sys prog ns _ as hopen hjoin, main_join_fail sys prog ns _ as hopen hjoin]

/-- The run does not depend on what follows the first two characters of a
selector that starts with `-u`. -/
theorem main_u_suffix (sys : Sys) (prog ns s t : CStr) (as : List CStr) :
    main sys (prog :: ns :: (lit "-u" ++ s) :: as) =
      main sys (prog :: ns :: (lit "-u" ++ t) :: as) := by
  by_cases hopen : sys.sys_open ns O_RDONLY = -1
  · rw [main_open_fail sys prog ns _ as hopen, main_open_fail sys prog ns _ as hopen]
  by_cases hjoin : sys.sys_setns (sys.sys_open ns O_RDONLY) 0 = 0
  · rw [main_umount sys prog ns _ as hopen hjoin (List.prefix_append _ s),
      main_umount sys prog ns _ as hopen hjoin (List.prefix_append _ t)]
  · rw [main_join_fail sys prog ns _ as hopen hjoin, main_join_fail sys prog ns _ as hopen hjoin]

/-- A selector that starts with neither `-m` nor `-u` leads to no `execvp` call. -/
theorem execs_unrecognized (sys : Sys) (prog ns op : CStr) (as : List CStr)
    (hm : ¬ lit "-m" <+: op) (hu : ¬ lit "-u" <+: op) :
    execs (main sys (prog :: ns :: op :: as)).trace = [] := by
  by_cases hopen : sys.sys_open ns O_RDONLY = -1
  · rw [main_open_fail sys prog ns _ as hopen]; simp [execs]
  by_cases hjoin : sys.sys_setns (sys.sys_open ns O_RDONLY) 0 = 0
  · rw [main_unrecognized sys prog ns op as hopen hjoin hm hu]; simp [execs]
  · rw [main_join_fail sys prog ns _ as hopen hjoin]; simp [execs]

/-- C7: the selection reads only the first two characters of the selector.
For every `s`, the test `strncmp(op, "-m", 2) == 0` holds of `-m` followed by
`s`, and of `-u` followed by `s` the first test fails and
`strncmp(op, "-u", 2) == 0` holds; both tests fail of every selector that
starts with neither `-m` nor `-u`, among them `-x`, `-` and the empty string.
Two runs that differ only in what follows the first two characters of the
selector are equal (so `-m` and `-mount` give the same `execvp` call), and a
selector that starts with neither leads to no `execvp` call. -/
theorem selector_first_two_chars :
    (∀ s : CStr, strncmp (lit "-m" ++ s) (lit "-m") 2 = 0) ∧
    (∀ s : CStr, strncmp (lit "-u" ++ s) (lit "-m") 2 ≠ 0 ∧
      strncmp (lit "-u" ++ s) (lit "-u") 2 = 0) ∧
    (∀ op : CStr, ¬ lit "-m" <+: op → ¬ lit "-u" <+: op →
      strncmp op (lit "-m") 2 ≠ 0 ∧ strncmp op (lit "-u") 2 ≠ 0) ∧
    (∀ op ∈ [lit "-x", lit "-", lit ""],
      strncmp op (lit "-m") 2 ≠ 0 ∧ strncmp op (lit "-u") 2 ≠ 0) ∧
    (∀ (sys : Sys) (prog ns s t : CStr) (as : List CStr),
      main sys (prog :: ns :: (lit "-m" ++ s) :: as) =
        main sys (prog :: ns :: (lit "-m" ++ t) :: as)) ∧
    (∀ (sys : Sys) (prog ns s t : CStr) (as : List CStr),
      main sys (prog :: ns :: (lit "-u" ++ s) :: as) =
        main sys (prog :: ns :: (lit "-u" ++ t) :: as)) ∧
    (∀ (sys : Sys) (prog ns s : CStr) (as : List CStr),
      sys.sys_open ns O_RDONLY ≠ -1 → sys.sys_setns (sys.sys_open ns O_RDONLY) 0 = 0 →
      execs (main sys (prog :: ns :: (lit "-m" ++ s) :: as)).trace =
        [.execvp (lit "mount") (lit "mount" :: as)
          (sys.sys_execvp (lit "mount") (lit "mount" :: as))]) ∧
    (∀ (sys : Sys) (prog ns s : CStr) (as : List CStr),
      sys.sys_open ns O_RDONLY ≠ -1 → sys.sys_setns (sys.sys_open ns O_RDONLY) 0 = 0 →
      execs (main sys (prog :: ns :: (lit "-u" ++ s) :: as)).trace =
        [.execvp (lit "umount") (lit "umount" :: as)
          (sys.sys_execvp (lit "umount") (lit "umount" :: as))]) ∧
    (∀ (sys : Sys) (prog ns op : CStr) (as : List CStr),
      ¬ lit "-m" <+: op → ¬ lit "-u" <+: op →
      execs (main sys (prog :: ns :: op :: as)).trace = []) := by
  refine ⟨?_, ?_, ?_, ?_, main_m_suffix, main_u_suffix, ?_, ?_, execs_unrecognized⟩
  · intro s
    exact (strncmp_m_iff _).2 (List.prefix_append _ s)
  · intro s
    exact ⟨fun h => not_m_of_u _ (List.prefix_append _ s) ((strncmp_m_iff _).1 h),
      (strncmp_u_iff _).2 (List.prefix_append _ s)⟩
  · intro op hm hu
    exact ⟨mt (strncmp_m_iff op).1 hm, mt (strncmp_u_iff op).1 hu⟩
  · decide
  · intro sys prog ns s as hopen hjoin
    rw [main_mount sys prog ns _ as hopen hjoin (List.prefix_append _ s)]
    rcases sys.sys_execvp (lit "mount") (lit "mount" :: as) with _ | e
    · simp [execs]
    · by_cases he : e = 0 <;> simp [execs, he]
  · intro sys prog ns s as hopen hjoin
    rw [main_umount sys prog ns _ as hopen hjoin (List.prefix_append _ s)]
    rcases sys.sys_execvp (lit "umount") (lit "umount" :: as) with _ | e
    · simp [execs]
    · by_cases he : e = 0 <;> simp [execs, he]

/-- The selectors `-mount` and `-m` give the same run, and `-x` gives no
`execvp` call. -/
theorem selector_first_two_chars_witness :
    main sys_ok [lit "prog", lit "/proc/1234/ns/mnt", lit "-mount", lit "/dev/sdb1"] =
      main sys_ok [lit "prog", lit "/proc/1234/ns/mnt", lit "-m", lit "/dev/sdb1"] ∧
    execs (main sys_ok [lit "prog", lit "/proc/1234/ns/mnt", lit "-x",
      lit "/dev/sdb1"]).trace = [] :=
  ⟨selector_first_two_chars.2.2.2.2.1 sys_ok (lit "prog") (lit "/proc/1234/ns/mnt")
      (lit "ount") [] [lit "/dev/sdb1"],
   selector_first_two_chars.2.2.2.2.2.2.2.2 sys_ok (lit "prog") (lit "/proc/1234/ns/mnt")
      (lit "-x") [lit "/dev/sdb1"] (by decide) (by decide)⟩

/-! ## Exit status and termination -/

/-- C8: every `exit` of a run is `exit(-1)`, observed as status 255, which is
not zero.  Each of the five failures ends the run that way: too few
arguments, a failed open, a failed join, an unrecognized selector, and an
`execvp` call that returned a non-zero value, after which the last call of
the run is the `perror` of the tool concerned. -/
theorem uniform_exit_status (sys : Sys) (argv : List CStr) :
    (∀ s, (main sys argv).outcome = .exited s →
      s = -1 ∧ wait_status s = 255 ∧ wait_status s ≠ 0) ∧
    (argv.length < 3 → (main sys argv).outcome = .exited (-1)) ∧
    (∀ prog ns op as, argv = prog :: ns :: op :: as →
      (sys.sys_open ns O_RDONLY = -1 → (main sys argv).outcome = .exited (-1)) ∧
      (sys.sys_open ns O_RDONLY ≠ -1 → sys.sys_setns (sys.sys_open ns O_RDONLY) 0 ≠ 0 →
        (main sys argv).outcome = .exited (-1)) ∧
      (sys.sys_open ns O_RDONLY ≠ -1 → sys.sys_setns (sys.sys_open ns O_RDONLY) 0 = 0 →
        ¬ lit "-m" <+: op → ¬ lit "-u" <+: op →
        (main sys argv).outcome = .exited (-1))) ∧
    (∀ file av e, Effect.execvp file av (some e) ∈ (main sys argv).trace → e ≠ 0 →
      (main sys argv).outcome = .exited (-1) ∧
      ((file = lit "mount" ∧
          (main sys argv).trace.getLast? = some (.perror "mount failed")) ∨
       (file = lit "umount" ∧
          (main sys argv).trace.getLast? = some (.perror "umount failed")))) := by
  refine ⟨?_, ?_, ?_, ?_⟩
  · intro s hs
    have hw : wait_status (-1) = 255 := by decide
    rcases main_cases sys argv with ⟨_, h⟩ | ⟨prog, ns, op, as, rfl, ⟨_, h⟩ | ⟨_, _, h⟩ |
      ⟨_, _, _, _, h⟩ | ⟨_, _, name, _, ⟨_, h⟩ | ⟨e, _, _, h⟩ | ⟨_, h⟩⟩⟩ <;>
      rw [h] at hs <;> simp at hs <;> subst hs <;> simp [hw]
  · intro hlen
    rw [main_short sys argv hlen]
  · rintro prog ns op as rfl
    refine ⟨fun hopen => ?_, fun hopen hjoin => ?_, fun hopen hjoin hm hu => ?_⟩
    · rw [main_open_fail sys prog ns op as hopen]
    · rw [main_join_fail sys prog ns op as hopen hjoin]
    · rw [main_unrecognized sys prog ns op as hopen hjoin hm hu]
  · intro file av e hmem he
    rcases main_cases sys argv with ⟨_, h⟩ | ⟨prog, ns, op, as, rfl, ⟨_, h⟩ | ⟨_, _, h⟩ |
      ⟨_, _, _, _, h⟩ | ⟨_, _, name, hname, ⟨_, h⟩ | ⟨e', _, _, h⟩ | ⟨_, h⟩⟩⟩
    · simp [h] at hmem
    · simp [h] at hmem
    · simp [h] at hmem
    · simp [h] at hmem
    · simp [h] at hmem
    · rw [h] at hmem ⊢
      simp at hmem
      obtain ⟨rfl, rfl, rfl⟩ := hmem
      rcases hname with ⟨rfl, _⟩ | ⟨rfl, _⟩
      · exact ⟨rfl, Or.inl ⟨rfl, by simp⟩⟩
      · exact ⟨rfl, Or.inr ⟨rfl, by simp⟩⟩
    · rw [h] at hmem
      simp at hmem
      exact absurd hmem.2.2 he

/-- The five failures at concrete inputs: each run ends with `exit(-1)`. -/
theorem uniform_exit_status_witness :
    (main sys_ok [lit "prog"]).outcome = .exited (-1) ∧
    (main sys_noopen [lit "prog", lit "/nonexistent/ns", lit "-m", lit "/dev/sdb1"]).outcome =
      .exited (-1) ∧
    (main sys_nojoin [lit "prog", lit "/proc/1234/ns/mnt", lit "-m", lit "/dev/sdb1"]).outcome =
      .exited (-1) ∧
    (main sys_ok [lit "prog", lit "/proc/1234/ns/mnt", lit "-x", lit "foo"]).outcome =
      .exited (-1) ∧
    ((main sys_noexec [lit "prog", lit "/proc/1234/ns/mnt", lit "-u", lit "/mnt/vol"]).outcome =
        .exited (-1) ∧
      ((lit "umount" = lit "mount" ∧
          (main sys_noexec [lit "prog", lit "/proc/1234/ns/mnt", lit "-u",
            lit "/mnt/vol"]).trace.getLast? = some (.perror "mount failed")) ∨
       (lit "umount" = lit "umount" ∧
          (main sys_noexec [lit "prog", lit "/proc/1234/ns/mnt", lit "-u",
            lit "/mnt/vol"]).trace.getLast? = some (.perror "umount failed")))) ∧
    wait_status (-1) = 255 :=
  ⟨(uniform_exit_status sys_ok [lit "prog"]).2.1 (by decide),
   ((uniform_exit_status sys_noopen
      [lit "prog", lit "/nonexistent/ns", lit "-m", lit "/dev/sdb1"]).2.2.1
      _ _ _ _ rfl).1 (by decide),
   ((uniform_exit_status sys_nojoin
      [lit "prog", lit "/proc/1234/ns/mnt", lit "-m", lit "/dev/sdb1"]).2.2.1
      _ _ _ _ rfl).2.1 (by decide) (by decide),
   ((uniform_exit_status sys_ok
      [lit "prog", lit "/proc/1234/ns/mnt", lit "-x", lit "foo"]).2.2.1
      _ _ _ _ rfl).2.2 (by decide) (by decide) (by decide) (by decide),
   (uniform_exit_status sys_noexec
      [lit "prog", lit "/proc/1234/ns/mnt", lit "-u", lit "/mnt/vol"]).2.2.2
      (lit "umount") [lit "umount", lit "/mnt/vol"] (-1) (by decide) (by decide),
   ((uniform_exit_status sys_ok [lit "prog"]).1 (-1) (by decide)).2.1⟩

/-- C9: when a failing `execvp` returns -1, every run ends either with the
process image replaced or with an `exit` whose status is not zero; control
never reaches the closing brace of `main`; and the image is replaced exactly
when there are at least three arguments, the open succeeds, the join
succeeds, the selector starts with `-m` or `-u`, and the `execvp` of the
selected tool does not return. -/
theorem terminal_outcomes (sys : Sys) (argv : List CStr)
    (hexec : ∀ file av e, sys.sys_execvp file av = some e → e = -1) :
    ((∃ file av, (main sys argv).outcome = .replaced file av) ∨
      (∃ s, (main sys argv).outcome = .exited s ∧ wait_status s ≠ 0)) ∧
    (main sys argv).outcome ≠ .fell_off_end ∧
    ((∃ file av, (main sys argv).outcome = .replaced file av) ↔
      3 ≤ argv.length ∧ ∃ prog ns op as, argv = prog :: ns :: op :: as ∧
        sys.sys_open ns O_RDONLY ≠ -1 ∧
        sys.sys_setns (sys.sys_open ns O_RDONLY) 0 = 0 ∧
        ((lit "-m" <+: op ∧ sys.sys_execvp (lit "mount") (lit "mount" :: as) = none) ∨
         (lit "-u" <+: op ∧ sys.sys_execvp (lit "umount") (lit "umount" :: as) = none))) := by
  have hw : wait_status (-1) ≠ 0 := by decide
  rcases main_cases sys argv with ⟨hlen, h⟩ | ⟨prog, ns, op, as, rfl, ⟨hopen, h⟩ |
    ⟨hopen, hjoin, h⟩ | ⟨hopen, hjoin, hm, hu, h⟩ |
    ⟨hopen, hjoin, name, hname, ⟨hx, h⟩ | ⟨e, hx, he, h⟩ | ⟨hx, h⟩⟩⟩
  · rw [h]
    refine ⟨Or.inr ⟨-1, rfl, hw⟩, by simp, ?_⟩
    constructor
    · rintro ⟨_, _, hr⟩; simp at hr
    · rintro ⟨h3, _⟩; omega
  · rw [h]
    refine ⟨Or.inr ⟨-1, rfl, hw⟩, by simp, ?_⟩
    constructor
    · rintro ⟨_, _, hr⟩; simp at hr
    · rintro ⟨_, _, _, _, _, heq, ho, _⟩
      simp only [List.cons.injEq] at heq
      obtain ⟨-, rfl, -, -⟩ := heq
      exact absurd hopen ho
  · rw [h]
    refine ⟨Or.inr ⟨-1, rfl, hw⟩, by simp, ?_⟩
    constructor
    · rintro ⟨_, _, hr⟩; simp at hr
    · rintro ⟨_, _, _, _, _, heq, _, hj, _⟩
      simp only [List.cons.injEq] at heq
      obtain ⟨-, rfl, -, -⟩ := heq
      exact absurd hj hjoin
  · rw [h]
    refine ⟨Or.inr ⟨-1, rfl, hw⟩, by simp, ?_⟩
    constructor
    · rintro ⟨_, _, hr⟩; simp at hr
    · rintro ⟨_, _, _, _, _, heq, _, _, hsel⟩
      simp only [List.cons.injEq] at heq
      obtain ⟨-, -, rfl, -⟩ := heq
      rcases hsel with ⟨hm', _⟩ | ⟨hu', _⟩
      · exact absurd hm' hm
      · exact absurd hu' hu
  · rw [h]
    refine ⟨Or.inl ⟨_, _, rfl⟩, by simp, ?_⟩
    constructor
    · intro _
      refine ⟨by simp, prog, ns, op, as, rfl, hopen, hjoin, ?_⟩
      rcases hname with ⟨rfl, hm⟩ | ⟨rfl, hu⟩
      · exact Or.inl ⟨hm, hx⟩
      · exact Or.inr ⟨hu, hx⟩
    · intro _
      exact ⟨_, _, rfl⟩
  · rw [h]
    refine ⟨Or.inr ⟨-1, rfl, hw⟩, by simp, ?_⟩
    constructor
    · rintro ⟨_, _, hr⟩; simp at hr
    · rintro ⟨_, _, _, _, _, heq, _, _, hsel⟩
      simp only [List.cons.injEq] at heq
      obtain ⟨-, -, rfl, rfl⟩ := heq
      rcases hname with ⟨rfl, hm⟩ | ⟨rfl, hu⟩
      · rcases hsel with ⟨_, hn⟩ | ⟨hu', _⟩
        · rw [hn] at hx; simp at hx
        · exact absurd hm (not_m_of_u _ hu')
      · rcases hsel with ⟨hm', _⟩ | ⟨_, hn⟩
        · exact absurd hm' (not_m_of_u _ hu)
        · rw [hn] at hx; simp at hx
  · have := hexec _ _ _ hx
    simp at this

/-- A run that replaces the image and a run whose `execvp` fails with -1. -/
theorem terminal_outcomes_witness :
    (main sys_ok [lit "prog", lit "/proc/1234/ns/mnt", lit "-m", lit "/dev/sdb1"]).outcome ≠
      .fell_off_end ∧
    (main sys_noexec [lit "prog", lit "/proc/1234/ns/mnt", lit "-m", lit "/dev/sdb1"]).outcome ≠
      .fell_off_end ∧
    ∃ file av,
      (main sys_ok [lit "prog", lit "/proc/1234/ns/mnt", lit "-m", lit "/dev/sdb1"]).outcome =
        .replaced file av :=
  ⟨(terminal_outcomes sys_ok [lit "prog", lit "/proc/1234/ns/mnt", lit "-m", lit "/dev/sdb1"]
      (by intro _ _ e h; simp [sys_ok] at h)).2.1,
   (terminal_outcomes sys_noexec [lit "prog", lit "/proc/1234/ns/mnt", lit "-m", lit "/dev/sdb1"]
      (by intro _ _ e h; simp [sys_noexec] at h; exact h.symm)).2.1,
   (terminal_outcomes sys_ok [lit "prog", lit "/proc/1234/ns/mnt", lit "-m", lit "/dev/sdb1"]
      (by intro _ _ e h; simp [sys_ok] at h)).2.2.2
      ⟨by decide, lit "prog", lit "/proc/1234/ns/mnt", lit "-m", [lit "/dev/sdb1"], rfl,
        by decide, by decide, Or.inl ⟨by decide, rfl⟩⟩⟩

/-! ## At most one call of each kind -/

/-- C10: every run makes at most one `open`, at most one `setns` and at most
one `execvp` call, never an `execvp` of `mount` and one of `umount` in the
same run; and a run that reaches the dispatch (at least three arguments,
successful open, `setns` returned 0), as every run with an `execvp` call
does, makes exactly one `setns` call. -/
theorem at_most_one_of_each (sys : Sys) (argv : List CStr) :
    (opens (main sys argv).trace).length ≤ 1 ∧
    (joins (main sys argv).trace).length ≤ 1 ∧
    (execs (main sys argv).trace).length ≤ 1 ∧
    ¬ ((∃ av r, Effect.execvp (lit "mount") av r ∈ (main sys argv).trace) ∧
       (∃ av r, Effect.execvp (lit "umount") av r ∈ (main sys argv).trace)) ∧
    (∀ prog ns op as, argv = prog :: ns :: op :: as →
      sys.sys_open ns O_RDONLY ≠ -1 → sys.sys_setns (sys.sys_open ns O_RDONLY) 0 = 0 →
      joins (main sys argv).trace = [.setns (sys.sys_open ns O_RDONLY) 0 0]) ∧
    (execs (main sys argv).trace ≠ [] → (joins (main sys argv).trace).length = 1) := by
  have hne : lit "umount" ≠ lit "mount" := by decide
  rcases main_cases sys argv with ⟨hlen, h⟩ | ⟨prog, ns, op, as, rfl, ⟨hopen, h⟩ |
    ⟨hopen, hjoin, h⟩ | ⟨hopen, hjoin, hm, hu, h⟩ |
    ⟨hopen, hjoin, name, hname, ⟨hx, h⟩ | ⟨e, hx, he, h⟩ | ⟨hx, h⟩⟩⟩
  · rw [h]
    refine ⟨by simp [opens], by simp [joins], by simp [execs], by simp, ?_, by simp [execs]⟩
    rintro _ _ _ _ rfl
    simp only [List.length_cons] at hlen
    omega
  · rw [h]
    refine ⟨by simp [opens], by simp [joins], by simp [execs], by simp, ?_, by simp [execs]⟩
    intro _ _ _ _ heq ho
    simp only [List.cons.injEq] at heq
    obtain ⟨-, rfl, -, -⟩ := heq
    exact absurd hopen ho
  · rw [h]
    refine ⟨by simp [opens], by simp [joins], by simp [execs], by simp, ?_, by simp [execs]⟩
    intro _ _ _ _ heq _ hj
    simp only [List.cons.injEq] at heq
    obtain ⟨-, rfl, -, -⟩ := heq
    exact absurd hj hjoin
  · rw [h]
    refine ⟨by simp [opens], by simp [joins], by simp [execs], by simp, ?_, by simp [execs]⟩
    intro _ _ _ _ heq _ _
    simp only [List.cons.injEq] at heq
    obtain ⟨-, rfl, -, -⟩ := heq
    simp [joins]
  · rw [h]
    refine ⟨by simp [opens], by simp [joins], by simp [execs], ?_, ?_, by simp [joins]⟩
    · rcases hname with ⟨rfl, _⟩ | ⟨rfl, _⟩ <;> simp [hne, hne.symm]
    · intro _ _ _ _ heq _ _
      simp only [List.cons.injEq] at heq
      obtain ⟨-, rfl, -, -⟩ := heq
      simp [joins]
  · rw [h]
    refine ⟨by simp [opens], by simp [joins], by simp [execs], ?_, ?_, by simp [joins]⟩
    · rcases hname with ⟨rfl, _⟩ | ⟨rfl, _⟩ <;> simp [hne, hne.symm]
    · intro _ _ _ _ heq _ _
      simp only [List.cons.injEq] at heq
      obtain ⟨-, rfl, -, -⟩ := heq
      simp [joins]
  · rw [h]
    refine ⟨by simp [opens], by simp [joins], by simp [execs], ?_, ?_, by simp [joins]⟩
    · rcases hname with ⟨rfl, _⟩ | ⟨rfl, _⟩ <;> simp [hne, hne.symm]
    · intro _ _ _ _ heq _ _
      simp only [List.cons.injEq] at heq
      obtain ⟨-, rfl, -, -⟩ := heq
      simp [joins]

/-- A failed `umount` is not retried, and its run joins the namespace once. -/
theorem at_most_one_of_each_witness :
    joins (main sys_noexec [lit "prog", lit "/proc/1234/ns/mnt", lit "-u", lit "/mnt/vol"]).trace =
      [.setns 3 0 0] ∧
    (joins (main sys_noexec [lit "prog", lit "/proc/1234/ns/mnt", lit "-u",
      lit "/mnt/vol"]).trace).length = 1 ∧
    (execs (main sys_noexec [lit "prog", lit "/proc/1234/ns/mnt", lit "-u",
      lit "/mnt/vol"]).trace).length ≤ 1 :=
  ⟨(at_most_one_of_each sys_noexec
      [lit "prog", lit "/proc/1234/ns/mnt", lit "-u", lit "/mnt/vol"]).2.2.2.2.1
      _ _ _ _ rfl (by decide) (by decide),
   (at_most_one_of_each sys_noexec
      [lit "prog", lit "/proc/1234/ns/mnt", lit "-u", lit "/mnt/vol"]).2.2.2.2.2 (by decide),
   (at_most_one_of_each sys_noexec
      [lit "prog", lit "/proc/1234/ns/mnt", lit "-u", lit "/mnt/vol"]).2.2.1⟩

end VolmgrMount
